import Mathlib

/-! jira-notificator: the polling worker and the session client

A shallow embedding of `internal/jira/worker.go` and `internal/jira/client.go`.

* Go slices and maps carry their nil-ness, because `cmp.Equal` tells a nil
  slice (map) from an empty non-nil one.
* The `Client` interface used by the worker and the `httpClient` transport
  used by the session client are oracles over an explicit state.
* Channel operations, client calls, `log.Fatalln` and `time.Sleep` are
  recorded as events, in program order.
-/

namespace Jira

/-! ## Go values -/

/-- Go slice: `none` is the nil slice, `some l` a non-nil slice with elements `l`. -/
abbrev Slice (α : Type) := Option (List α)

/-- Elements visited by `range` over a slice (none for the nil slice). -/
def Slice.elems {α : Type} : Slice α → List α
  | none => []
  | some l => l

/-- Go `append(s, v)`: appending to the nil slice gives a non-nil slice. -/
def Slice.append {α : Type} (s : Slice α) (v : α) : Slice α :=
  some (Slice.elems s ++ [v])

/-- Go `map[string]string`: `none` is the nil map, `some kvs` a non-nil map
given by its entries (the first entry of a key is the one looked up). -/
abbrev GoMap := Option (List (String × String))

/-- Map index `m[k]` with the comma-ok result. -/
def GoMap.lookup (kvs : List (String × String)) (k : String) : Option String :=
  (kvs.find? (fun kv => kv.1 == k)).map Prod.snd

/-- The type `User` of client.go. -/
structure User where
  AtlassianId : String
  Name : String
  deriving DecidableEq, Repr

/-- The type `Metadata` of client.go. -/
structure Metadata where
  User : User
  deriving DecidableEq, Repr

/-- The type `Notification` of client.go. -/
structure Notification where
  Title : String
  Users : GoMap
  Template : String
  Timestamp : String
  Metadata : Metadata
  deriving DecidableEq, Repr

/-! ## cmp.Equal (github.com/google/go-cmp), at the types the worker uses it -/

/-- `cmp.Equal` on two maps: both nil, or both non-nil with the same keys
bound to equal values. -/
def cmpEqualMap : GoMap → GoMap → Bool
  | none, none => true
  | some a, some b =>
    (a.all fun kv => GoMap.lookup a kv.1 == GoMap.lookup b kv.1) &&
    (b.all fun kv => GoMap.lookup a kv.1 == GoMap.lookup b kv.1)
  | _, _ => false

/-- `cmp.Equal(v, u)` on two notifications: field by field. -/
def cmpEqual (v u : Notification) : Bool :=
  v.Title == u.Title && cmpEqualMap v.Users u.Users && v.Template == u.Template &&
  v.Timestamp == u.Timestamp &&
  v.Metadata.User.AtlassianId == u.Metadata.User.AtlassianId &&
  v.Metadata.User.Name == u.Metadata.User.Name

/-- Element-wise comparison of two element lists of equal length. -/
def cmpEqualList : List Notification → List Notification → Bool
  | [], [] => true
  | v :: vs, u :: us => cmpEqual v u && cmpEqualList vs us
  | _, _ => false

/-- `cmp.Equal` on two snapshots: both nil, or both non-nil, of the same
length and element-wise equal. -/
def cmpEqualSlice : Slice Notification → Slice Notification → Bool
  | none, none => true
  | some a, some b => cmpEqualList a b
  | _, _ => false

/-! ## worker.go -/

/-- The two state functions; the nil `stateFunc` is `none` of the option. -/
inductive stateFunc where
  | fetchNotifications
  | fetchNotificationCount
  deriving DecidableEq, Repr

/-- The interface `Client` as the worker sees it: each method answers from the
state of the remote side and moves it on. -/
structure Client (σ : Type) where
  FetchNotificationCount : σ → Except String Int × σ
  FetchNotifications : σ → Except String (Slice Notification) × σ

/-- The fields of `notificationWorker` that hold data; `c` is the oracle
passed alongside, the two channels show up as events. -/
structure notificationWorker where
  state : Option stateFunc
  e : Option String
  notificationCount : Int
  notificationData : Slice Notification
  deriving DecidableEq, Repr

/-- What the worker does to the outside, in program order. -/
inductive Event where
  | callFetchNotificationCount
  | callFetchNotifications
  | send (d : Slice Notification)
  | closeChannel
  | fatal (err : String)
  | signalFinished
  | sleep
  deriving DecidableEq, Repr

/-- Result of running a state function: it returns the next state function, or
`log.Fatalln` ends the process inside it. -/
inductive Step (σ : Type) where
  | returned (w : notificationWorker) (next : Option stateFunc) (remote : σ)
  | exited (remote : σ)
  deriving DecidableEq, Repr

/-- Inner loop of `fetchNotifications` (lines 61-66): scan the old snapshot
for an element equal to `v`, stopping at the first. -/
def skipLoop (v : Notification) : List Notification → Bool
  | [] => false
  | u :: us => if cmpEqual v u then true else skipLoop v us

/-- Outer loop of `fetchNotifications` (lines 59-70), `unique` being the
accumulator. -/
def uniqueLoop (old : List Notification) :
    List Notification → Slice Notification → Slice Notification
  | [], unique => unique
  | v :: vs, unique =>
    uniqueLoop old vs (if !skipLoop v old then Slice.append unique v else unique)

/-- The slice `unique` at line 71: declared nil, then filled by the loops. -/
def unique (old new : Slice Notification) : Slice Notification :=
  uniqueLoop (Slice.elems old) (Slice.elems new) none

/-- The state function `fetchNotifications`, with the events it causes. -/
def fetchNotifications {σ : Type} (c : Client σ) (f : notificationWorker) (remote : σ) :
    Step σ × List Event :=
  match c.FetchNotifications remote with
  | (Except.error err, r) =>
    (Step.exited r, [Event.callFetchNotifications, Event.fatal err])
  | (Except.ok notifications, r) =>
    if !cmpEqualSlice f.notificationData notifications then
      (Step.returned { f with notificationData := notifications }
          (some stateFunc.fetchNotificationCount) r,
        [Event.callFetchNotifications, Event.send (unique f.notificationData notifications)])
    else
      (Step.returned f (some stateFunc.fetchNotificationCount) r,
        [Event.callFetchNotifications])

/-- The state function `fetchNotificationCount`, with the events it causes. -/
def fetchNotificationCount {σ : Type} (c : Client σ) (f : notificationWorker) (remote : σ) :
    Step σ × List Event :=
  match c.FetchNotificationCount remote with
  | (Except.error err, r) =>
    (Step.exited r, [Event.callFetchNotificationCount, Event.fatal err])
  | (Except.ok count, r) =>
    if count != f.notificationCount then
      (Step.returned { f with notificationCount := count }
          (some stateFunc.fetchNotifications) r,
        [Event.callFetchNotificationCount])
    else
      (Step.returned f (some stateFunc.fetchNotificationCount) r,
        [Event.callFetchNotificationCount])

/-- Calling a `stateFunc` value: `state(w)` at line 39. -/
def stateFunc.call {σ : Type} (s : stateFunc) (c : Client σ) (w : notificationWorker)
    (remote : σ) : Step σ × List Event :=
  match s with
  | stateFunc.fetchNotifications => Jira.fetchNotifications c w remote
  | stateFunc.fetchNotificationCount => Jira.fetchNotificationCount c w remote

/-- `NewWorker`: one `FetchNotifications` seeds the snapshot; its error is
returned and no worker is built. -/
def NewWorker {σ : Type} (c : Client σ) (remote : σ) : Except String notificationWorker × σ :=
  match c.FetchNotifications remote with
  | (Except.error err, r) => (Except.error err, r)
  | (Except.ok notifications, r) =>
    (Except.ok
      { state := some stateFunc.fetchNotificationCount
        e := none
        notificationCount := 0
        notificationData := notifications }, r)

/-- Where a run of `Start` stands. -/
inductive Run (σ : Type) where
  | looping (state : stateFunc) (w : notificationWorker) (remote : σ)
  | exited (remote : σ)
  | finished (w : notificationWorker) (remote : σ)
  deriving DecidableEq, Repr

/-- Lines 42-48 of `Start`: what follows the loop. -/
def afterLoop {σ : Type} (w : notificationWorker) (remote : σ) : Run σ × List Event :=
  match w.e with
  | some err => (Run.exited remote, [Event.closeChannel, Event.fatal err])
  | none => (Run.finished w remote, [Event.closeChannel, Event.signalFinished])

/-- The loop of `Start` (lines 38-41) run for at most `fuel` iterations, then
the lines after it when the loop has ended. `Run.looping` is a loop that has
iterations left to do after `fuel` of them. -/
def loop {σ : Type} (c : Client σ) :
    Nat → Option stateFunc → notificationWorker → σ → Run σ × List Event
  | _, none, w, remote => afterLoop w remote
  | 0, some s, w, remote => (Run.looping s w remote, [])
  | fuel + 1, some s, w, remote =>
    match stateFunc.call s c w remote with
    | (Step.exited r, evs) => (Run.exited r, evs)
    | (Step.returned w1 next r, evs) =>
      let rest := loop c fuel next w1 r
      (rest.1, evs ++ Event.sleep :: rest.2)

/-- The method `Start`: the loop starts from the worker's `state` field. -/
def Start {σ : Type} (c : Client σ) (fuel : Nat) (w : notificationWorker) (remote : σ) :
    Run σ × List Event :=
  loop c fuel w.state w remote

/-! ## client.go -/

/-- Path of the notification list endpoint. -/
def restNotifications : String := "/gateway/api/notification-log/api/2/notifications"

/-- Path of the unseen-count endpoint. -/
def restNotificationCount : String :=
  "/gateway/api/notification-log/api/2/notifications/count/unseen"

/-- Address of the identity endpoint. -/
def restAuthUrl : String := "https://id.atlassian.com/id/rest/login"

/-- Message of the error for a host that answers "not found". -/
def errorUnableToFoundHost : String :=
  "unable to establish connection to the server. Check URL spelling"

/-- Message of the error for rejected credentials. -/
def errorWrongCredentials : String := "wrong username or password"

/-- The value `http.StatusNotFound`. -/
def StatusNotFound : Int := 404

/-- The value `http.StatusForbidden`. -/
def StatusForbidden : Int := 403

/-- An `http.Request` as the client builds it: method, address, the headers in
the order they were set, and the body handed over (none for a nil body). -/
structure Request where
  Method : String
  URL : String
  Header : List (String × String)
  Body : Option String
  deriving DecidableEq, Repr

/-- An `http.Response` as far as the client reads it: the status code, the
value of `Header.Get("Set-Cookie")` and what `ioutil.ReadAll` makes of the
body. -/
structure Response where
  StatusCode : Int
  SetCookie : String
  Body : Except String String

/-- The interface `httpClient`: `Do` answers a request with the pair of a
response pointer (none for nil) and an error (none for nil), from a transport
state that it moves on. -/
structure httpClient (τ : Type) where
  Do : τ → Request → (Option Response × Option String) × τ

/-- Standard-library functions the client calls, taken as given: the error of
`http.NewRequest` for an address (none when it builds the request),
`json.Marshal` of the credentials map, and `json.Unmarshal` into a `*Count`
(which a JSON null leaves nil) and into `Notifications`. -/
structure Lib where
  urlError : String → Option String
  Marshal : String → String → Except String String
  UnmarshalCount : String → Except String (Option Int)
  UnmarshalNotifications : String → Except String (Slice Notification)

/-- The struct `client`; its field `client` is the transport passed alongside.
The credential buffer is held by the content it was created with; that a
transport which reads the body of the login request drains the shared buffer
is not tracked. -/
structure client where
  host : String
  cookie : String
  credentialBuffer : String
  deriving DecidableEq, Repr

/-- The network: the state of the transport and the requests handed to `Do`
so far, oldest first. -/
structure Net (τ : Type) where
  transport : τ
  sent : List Request

/-- A Go call either returns or panics (a nil pointer is dereferenced). -/
inductive Go (α : Type) where
  | ret (a : α)
  | panicked
  deriving DecidableEq, Repr

/-- The call `c.client.Do(req)`, recording the request. -/
def doRequest {τ : Type} (h : httpClient τ) (req : Request) (n : Net τ) :
    (Option Response × Option String) × Net τ :=
  let out := h.Do n.transport req
  (out.1, { transport := out.2, sent := n.sent ++ [req] })

/-- Go `strings.HasSuffix`. -/
def HasSuffix (s suffix : String) : Bool :=
  suffix.data.isSuffixOf s.data

/-- Go `strings.TrimSuffix`. -/
def TrimSuffix (s suffix : String) : String :=
  if HasSuffix s suffix then String.mk (s.data.take (s.data.length - suffix.data.length)) else s

/-- `NewClient`. The value of `strings.TrimSuffix` at line 76 is not assigned
to anything, so `host` goes into the struct as it was given. -/
def NewClient (lib : Lib) (host username password : String) : Except String client :=
  let _trimmed := if HasSuffix host "/" then TrimSuffix host "/" else host
  match lib.Marshal username password with
  | Except.error err => Except.error err
  | Except.ok j => Except.ok { host := host, cookie := "", credentialBuffer := j }

/-- The liveness request of `isHostExisting`. -/
def hostRequest (c : client) : Request :=
  { Method := "GET", URL := c.host, Header := [], Body := none }

/-- The request that `isLoggedIn` and `FetchNotificationCount` build. -/
def countRequest (c : client) : Request :=
  { Method := "GET", URL := c.host ++ restNotificationCount,
    Header := [("Cookie", c.cookie), ("Connection", "keep-alive")], Body := none }

/-- The request that `FetchNotifications` builds. -/
def notificationsRequest (c : client) : Request :=
  { Method := "GET", URL := c.host ++ restNotifications,
    Header := [("Cookie", c.cookie), ("Connection", "keep-alive")], Body := none }

/-- The credential submission of `Login`. -/
def loginRequest (c : client) : Request :=
  { Method := "POST", URL := restAuthUrl, Header := [("Content-Type", "application/json")],
    Body := some c.credentialBuffer }

/-- The method `isHostExisting`: the returned error, none for nil. -/
def isHostExisting {τ : Type} (lib : Lib) (h : httpClient τ) (c : client) (n : Net τ) :
    Go (Option String) × Net τ :=
  match lib.urlError c.host with
  | some err => (Go.ret (some err), n)
  | none =>
    match doRequest h (hostRequest c) n with
    | ((_, some err), n1) => (Go.ret (some err), n1)
    | ((none, none), n1) => (Go.panicked, n1)
    | ((some res, none), n1) =>
      if res.StatusCode = StatusNotFound then (Go.ret (some errorUnableToFoundHost), n1)
      else (Go.ret none, n1)

/-- The method `isLoggedIn`. -/
def isLoggedIn {τ : Type} (lib : Lib) (h : httpClient τ) (c : client) (n : Net τ) :
    Go Bool × Net τ :=
  match lib.urlError (c.host ++ restNotificationCount) with
  | some _ => (Go.ret false, n)
  | none =>
    match doRequest h (countRequest c) n with
    | ((_, some _), n1) => (Go.ret false, n1)
    | ((none, none), n1) => (Go.panicked, n1)
    | ((some res, none), n1) =>
      if res.StatusCode ≠ StatusForbidden then (Go.ret true, n1) else (Go.ret false, n1)

/-- The method `Login` (pointer receiver): the returned error, none for nil,
and the client it was called on, as it is after the call. -/
def Login {τ : Type} (lib : Lib) (h : httpClient τ) (c : client) (n : Net τ) :
    Go (Option String × client) × Net τ :=
  match isHostExisting lib h c n with
  | (Go.panicked, n1) => (Go.panicked, n1)
  | (Go.ret (some err), n1) => (Go.ret (some err, c), n1)
  | (Go.ret none, n1) =>
    match lib.urlError restAuthUrl with
    | some _ => (Go.panicked, n1)
    | none =>
      match doRequest h (loginRequest c) n1 with
      | ((none, _), n2) => (Go.panicked, n2)
      | ((some res, err), n2) =>
        if res.StatusCode = StatusNotFound then
          (Go.ret (some errorUnableToFoundHost, c), n2)
        else if res.StatusCode = StatusForbidden then
          (Go.ret (some errorWrongCredentials, c), n2)
        else
          (Go.ret (err, { c with cookie := res.SetCookie }), n2)

/-- Lines 165-167 and 197-199: the pre-check and the re-login on the local
copy `c` of the receiver; the value is the copy as it goes on (the error of
`Login` is dropped). -/
def relogin {τ : Type} (lib : Lib) (h : httpClient τ) (c : client) (n : Net τ) :
    Go client × Net τ :=
  match isLoggedIn lib h c n with
  | (Go.panicked, n1) => (Go.panicked, n1)
  | (Go.ret true, n1) => (Go.ret c, n1)
  | (Go.ret false, n1) =>
    match Login lib h c n1 with
    | (Go.panicked, n2) => (Go.panicked, n2)
    | (Go.ret (_, c1), n2) => (Go.ret c1, n2)

/-- What a fetch method leaves behind: its pair of value and error as one
result, and the client struct behind the interface value after the call. -/
structure Fetched (α : Type) where
  result : Go (Except String α)
  stored : client

/-- The method `FetchNotificationCount`. It has a value receiver: the body
runs on a copy of the struct `stored` behind the interface value, `Login`
writes the cookie of that copy, and `stored` is not written. -/
def FetchNotificationCount {τ : Type} (lib : Lib) (h : httpClient τ) (stored : client)
    (n : Net τ) : Fetched Int × Net τ :=
  match relogin lib h stored n with
  | (Go.panicked, n1) => ({ result := Go.panicked, stored := stored }, n1)
  | (Go.ret c, n1) =>
    match lib.urlError (c.host ++ restNotificationCount) with
    | some err => ({ result := Go.ret (Except.error err), stored := stored }, n1)
    | none =>
      match doRequest h (countRequest c) n1 with
      | ((_, some err), n2) => ({ result := Go.ret (Except.error err), stored := stored }, n2)
      | ((none, none), n2) => ({ result := Go.panicked, stored := stored }, n2)
      | ((some res, none), n2) =>
        match res.Body with
        | Except.error err => ({ result := Go.ret (Except.error err), stored := stored }, n2)
        | Except.ok body =>
          match lib.UnmarshalCount body with
          | Except.error err => ({ result := Go.ret (Except.error err), stored := stored }, n2)
          | Except.ok none => ({ result := Go.panicked, stored := stored }, n2)
          | Except.ok (some count) =>
            ({ result := Go.ret (Except.ok count), stored := stored }, n2)

/-- The method `FetchNotifications`, with a value receiver as well. -/
def FetchNotifications {τ : Type} (lib : Lib) (h : httpClient τ) (stored : client)
    (n : Net τ) : Fetched (Slice Notification) × Net τ :=
  match relogin lib h stored n with
  | (Go.panicked, n1) => ({ result := Go.panicked, stored := stored }, n1)
  | (Go.ret c, n1) =>
    match lib.urlError (c.host ++ restNotifications) with
    | some err => ({ result := Go.ret (Except.error err), stored := stored }, n1)
    | none =>
      match doRequest h (notificationsRequest c) n1 with
      | ((_, some err), n2) => ({ result := Go.ret (Except.error err), stored := stored }, n2)
      | ((none, none), n2) => ({ result := Go.panicked, stored := stored }, n2)
      | ((some res, none), n2) =>
        match res.Body with
        | Except.error err => ({ result := Go.ret (Except.error err), stored := stored }, n2)
        | Except.ok body =>
          match lib.UnmarshalNotifications body with
          | Except.error err => ({ result := Go.ret (Except.error err), stored := stored }, n2)
          | Except.ok data => ({ result := Go.ret (Except.ok data), stored := stored }, n2)

/-! ## Delta, as the specification words it -/

/-- Delta of the specification: the elements of the new snapshot `B` with no
structurally equal element in the old snapshot `A`, in the order of `B`. -/
def Delta (A B : List Notification) : List Notification :=
  B.filter fun v => !(A.any fun u => cmpEqual v u)

/-! ## Sample values -/

/-- A notification with the given title and no `users` object. -/
def sampleNotification (title : String) : Notification :=
  { Title := title
    Users := none
    Template := "default"
    Timestamp := "2020-01-01T00:00:00Z"
    Metadata := { User := { AtlassianId := "1", Name := "Ann" } } }

/-- A client that answers every call with the same count and snapshot. -/
def steadyClient (count : Int) (snapshot : Slice Notification) : Client Unit :=
  { FetchNotificationCount := fun r => (Except.ok count, r)
    FetchNotifications := fun r => (Except.ok snapshot, r) }

/-- A client whose every call fails with the given error. -/
def failingClient (err : String) : Client Unit :=
  { FetchNotificationCount := fun r => (Except.error err, r)
    FetchNotifications := fun r => (Except.error err, r) }

/-- A worker in state CountProbe holding the given count and snapshot. -/
def sampleWorker (count : Int) (snapshot : Slice Notification) : notificationWorker :=
  { state := some stateFunc.fetchNotificationCount
    e := none
    notificationCount := count
    notificationData := snapshot }

/-- A transport that answers the requests from a script, one entry each, and
with a transport error once the script is used up. -/
def scripted : httpClient (List (Option Response × Option String)) :=
  { Do := fun t _ =>
      match t with
      | [] => ((none, some "EOF"), [])
      | out :: rest => (out, rest) }

/-- A response with the given status, cookie header and body. -/
def answer (status : Int) (setCookie body : String) : Option Response × Option String :=
  (some { StatusCode := status, SetCookie := setCookie, Body := Except.ok body }, none)

/-- Stand-ins for the library functions: every address builds a request,
every body decodes to the count 3 and to the snapshot N1. -/
def sampleLib : Lib :=
  { urlError := fun _ => none
    Marshal := fun username password => Except.ok (username ++ ":" ++ password)
    UnmarshalCount := fun _ => Except.ok (some 3)
    UnmarshalNotifications := fun _ => Except.ok (some [sampleNotification "N1"]) }

/-- A client holding an expired session token. -/
def staleClient : client :=
  { host := "https://example.atlassian.net", cookie := "stale", credentialBuffer := "ann:secret" }

/-- The remote side rejects the pre-check with "forbidden", answers the
liveness request, answers the credential submission with the token "fresh",
and then answers the fetch. -/
def expiredSession : Net (List (Option Response × Option String)) :=
  { transport := [answer 403 "" "", answer 200 "" "", answer 200 "fresh" "", answer 200 "" "3"]
    sent := [] }

/-- The remote side answers the liveness request and rejects the credentials. -/
def rejectedLogin : Net (List (Option Response × Option String)) :=
  { transport := [answer 200 "" "", answer 403 "" ""], sent := [] }

/-- The host answers the liveness request with "not found". -/
def unknownHost : Net (List (Option Response × Option String)) :=
  { transport := [answer 404 "" "", answer 200 "fresh" ""], sent := [] }

/-- The network after the pre-check of a fetch on the expired session. -/
def afterPreCheck : Net (List (Option Response × Option String)) :=
  (isLoggedIn sampleLib scripted staleClient expiredSession).2

/-- The network after the re-login that follows that pre-check. -/
def afterLogin : Net (List (Option Response × Option String)) :=
  (Login sampleLib scripted staleClient afterPreCheck).2

/-- All the answers of a client are successes. -/
def Client.succeeds {σ : Type} (c : Client σ) : Prop :=
  (∀ s, ∃ v r, c.FetchNotificationCount s = (Except.ok v, r)) ∧
  (∀ s, ∃ v r, c.FetchNotifications s = (Except.ok v, r))

/-- An event of a live loop: a client call, a send or a sleep. -/
def Event.live : Event → Prop
  | Event.closeChannel => False
  | Event.fatal _ => False
  | Event.signalFinished => False
  | _ => True

/-! ## Lemmas on cmp.Equal and the loops -/

theorem cmpEqualMap_refl (m : GoMap) : cmpEqualMap m m = true := by
  cases m with
  | none => rfl
  | some a => simp [cmpEqualMap]

theorem cmpEqual_refl (v : Notification) : cmpEqual v v = true := by
  simp [cmpEqual, cmpEqualMap_refl]

theorem skipLoop_eq_any (v : Notification) (old : List Notification) :
    skipLoop v old = old.any fun u => cmpEqual v u := by
  induction old with
  | nil => rfl
  | cons u us ih =>
    simp only [skipLoop, List.any_cons, ih]
    cases cmpEqual v u <;> simp

theorem uniqueLoop_elems (old new : List Notification) (acc : Slice Notification) :
    Slice.elems (uniqueLoop old new acc) = Slice.elems acc ++ Delta old new := by
  induction new generalizing acc with
  | nil => simp [uniqueLoop, Delta]
  | cons v vs ih =>
    rw [uniqueLoop, ih]
    by_cases h : skipLoop v old = true
    · have h2 : (old.any fun u => cmpEqual v u) = true := by rw [← skipLoop_eq_any]; exact h
      simp [h, Delta, List.filter_cons, h2]
    · have h1 : skipLoop v old = false := by simpa using h
      have h2 : (old.any fun u => cmpEqual v u) = false := by rw [← skipLoop_eq_any]; exact h1
      simp [h1, Delta, List.filter_cons, h2, Slice.append, Slice.elems]

theorem unique_elems (A B : Slice Notification) :
    Slice.elems (unique A B) = Delta (Slice.elems A) (Slice.elems B) := by
  rw [unique, uniqueLoop_elems]
  rfl

theorem Delta_eq_nil_of_covered (A B : List Notification)
    (h : ∀ v ∈ B, ∃ u ∈ A, cmpEqual v u = true) : Delta A B = [] := by
  simp only [Delta, List.filter_eq_nil_iff]
  intro v hv
  obtain ⟨u, hu, huv⟩ := h v hv
  simp only [Bool.not_eq_true, Bool.not_eq_false_eq_eq_true, Bool.not_eq_eq_eq_not,
    Bool.not_true, Bool.not_eq_false, List.any_eq_true]
  exact ⟨u, hu, huv⟩

theorem cmpEqualMap_symm (a b : GoMap) : cmpEqualMap a b = cmpEqualMap b a := by
  cases a with
  | none => cases b <;> rfl
  | some x =>
    cases b with
    | none => rfl
    | some y =>
      have hfg : (fun kv : String × String => GoMap.lookup x kv.1 == GoMap.lookup y kv.1) =
          fun kv => GoMap.lookup y kv.1 == GoMap.lookup x kv.1 :=
        funext fun kv => Bool.eq_iff_iff.2 (by rw [beq_iff_eq, beq_iff_eq]; exact eq_comm)
      simp only [cmpEqualMap, hfg]
      exact Bool.and_comm _ _

theorem cmpEqual_symm (v u : Notification) : cmpEqual v u = cmpEqual u v := by
  simp only [cmpEqual, cmpEqualMap_symm v.Users u.Users]
  simp only [BEq.comm]

theorem cmpEqualList_covered (a b : List Notification) (h : cmpEqualList a b = true) :
    ∀ v ∈ b, ∃ u ∈ a, cmpEqual v u = true := by
  induction a generalizing b with
  | nil =>
    cases b with
    | nil => simp
    | cons v vs => simp [cmpEqualList] at h
  | cons u us ih =>
    cases b with
    | nil => simp
    | cons v vs =>
      simp only [cmpEqualList, Bool.and_eq_true] at h
      intro x hx
      rcases List.mem_cons.1 hx with rfl | hx
      · exact ⟨u, List.mem_cons_self _ _, by rw [cmpEqual_symm]; exact h.1⟩
      · obtain ⟨y, hy, hxy⟩ := ih vs h.2 x hx
        exact ⟨y, List.mem_cons_of_mem _ hy, hxy⟩

theorem Delta_eq_nil_of_cmpEqualSlice (A B : Slice Notification)
    (h : cmpEqualSlice A B = true) : Delta (Slice.elems A) (Slice.elems B) = [] := by
  cases A with
  | none =>
    cases B with
    | none => rfl
    | some b => simp [cmpEqualSlice] at h
  | some a =>
    cases B with
    | none => simp [cmpEqualSlice] at h
    | some b => exact Delta_eq_nil_of_covered a b (cmpEqualList_covered a b h)

theorem stateFunc_call_of_succeeds {σ : Type} (c : Client σ) (hc : Client.succeeds c)
    (s : stateFunc) (w : notificationWorker) (remote : σ) :
    ∃ w1 next r evs, stateFunc.call s c w remote = (Step.returned w1 (some next) r, evs) ∧
      ∀ ev ∈ evs, Event.live ev := by
  cases s with
  | fetchNotifications =>
    obtain ⟨v, r, h⟩ := hc.2 remote
    simp only [stateFunc.call, fetchNotifications, h]
    split <;> exact ⟨_, _, _, _, rfl, by simp [Event.live]⟩
  | fetchNotificationCount =>
    obtain ⟨v, r, h⟩ := hc.1 remote
    simp only [stateFunc.call, fetchNotificationCount, h]
    split <;> exact ⟨_, _, _, _, rfl, by simp [Event.live]⟩

theorem loop_of_succeeds {σ : Type} (c : Client σ) (hc : Client.succeeds c) (fuel : Nat) :
    ∀ (s : stateFunc) (w : notificationWorker) (remote : σ),
      ∃ s1 w1 r, (loop c fuel (some s) w remote).1 = Run.looping s1 w1 r ∧
        ∀ ev ∈ (loop c fuel (some s) w remote).2, Event.live ev := by
  induction fuel with
  | zero => intro s w remote; exact ⟨s, w, remote, rfl, by simp [loop]⟩
  | succ n ih =>
    intro s w remote
    obtain ⟨w1, next, r, evs, hstep, hev⟩ := stateFunc_call_of_succeeds c hc s w remote
    obtain ⟨s2, w2, r2, hrun, hev2⟩ := ih next w1 r
    refine ⟨s2, w2, r2, ?_, ?_⟩
    · simp only [loop, hstep]; exact hrun
    · simp only [loop, hstep]
      intro ev hmem
      rcases List.mem_append.1 hmem with h1 | h1
      · exact hev ev h1
      · rcases List.mem_cons.1 h1 with rfl | h2
        · simp [Event.live]
        · exact hev2 ev h2

/-! ## Lemmas on the session client -/

theorem Login_host {τ : Type} (lib : Lib) (h : httpClient τ) (c c1 : client) (n n2 : Net τ)
    (e : Option String) (hl : Login lib h c n = (Go.ret (e, c1), n2)) : c1.host = c.host := by
  unfold Login at hl
  split at hl
  · simp at hl
  · simp only [Prod.mk.injEq, Go.ret.injEq] at hl
    rw [← hl.1.2]
  · split at hl
    · simp at hl
    · split at hl
      · simp at hl
      · split_ifs at hl <;> simp only [Prod.mk.injEq, Go.ret.injEq] at hl <;> rw [← hl.1.2]

theorem relogin_of_Login {τ : Type} (lib : Lib) (h : httpClient τ) (c c1 : client)
    (n n1 n2 : Net τ) (e : Option String)
    (hpre : isLoggedIn lib h c n = (Go.ret false, n1))
    (hl : Login lib h c n1 = (Go.ret (e, c1), n2)) :
    relogin lib h c n = (Go.ret c1, n2) := by
  simp only [relogin, hpre, hl]

theorem FetchNotificationCount_net {τ : Type} (lib : Lib) (h : httpClient τ) (c c1 : client)
    (n n2 : Net τ) (hre : relogin lib h c n = (Go.ret c1, n2))
    (hurl : lib.urlError (c1.host ++ restNotificationCount) = none) :
    (FetchNotificationCount lib h c n).2 = (doRequest h (countRequest c1) n2).2 := by
  simp only [FetchNotificationCount, hre, hurl]
  generalize doRequest h (countRequest c1) n2 = out
  rcases out with ⟨⟨res, err⟩, n3⟩
  cases res with
  | none => cases err <;> rfl
  | some r =>
    cases err with
    | some e => rfl
    | none =>
      dsimp only
      split
      · rfl
      · split <;> rfl

theorem FetchNotifications_net {τ : Type} (lib : Lib) (h : httpClient τ) (c c1 : client)
    (n n2 : Net τ) (hre : relogin lib h c n = (Go.ret c1, n2))
    (hurl : lib.urlError (c1.host ++ restNotifications) = none) :
    (FetchNotifications lib h c n).2 = (doRequest h (notificationsRequest c1) n2).2 := by
  simp only [FetchNotifications, hre, hurl]
  generalize doRequest h (notificationsRequest c1) n2 = out
  rcases out with ⟨⟨res, err⟩, n3⟩
  cases res with
  | none => cases err <;> rfl
  | some r =>
    cases err with
    | some e => rfl
    | none =>
      dsimp only
      split
      · rfl
      · split <;> rfl

theorem FetchNotificationCount_stored {τ : Type} (lib : Lib) (h : httpClient τ) (c : client)
    (n : Net τ) : (FetchNotificationCount lib h c n).1.stored = c := by
  unfold FetchNotificationCount
  repeat' (first | rfl | split)

theorem FetchNotifications_stored {τ : Type} (lib : Lib) (h : httpClient τ) (c : client)
    (n : Net τ) : (FetchNotifications lib h c n).1.stored = c := by
  unfold FetchNotifications
  repeat' (first | rfl | split)

/-! ## The claims -/

/-- C1: the slice `unique` that the ListFetch step computes from the old snapshot
`A` and the new snapshot `B` holds exactly the elements of `B` that have no
structurally equal element in `A`, in the order of `B` (so it is a sub-sequence
of `B`); it is empty whenever every element of `B` equals some element of `A`,
for instance when `B` is a reordering of `A`. -/
theorem unique_is_Delta (A B : Slice Notification) :
    Slice.elems (unique A B) = Delta (Slice.elems A) (Slice.elems B) ∧
    List.Sublist (Slice.elems (unique A B)) (Slice.elems B) ∧
    (∀ v, v ∈ Slice.elems (unique A B) ↔
      v ∈ Slice.elems B ∧ ∀ u ∈ Slice.elems A, cmpEqual v u = false) ∧
    ((∀ v ∈ Slice.elems B, ∃ u ∈ Slice.elems A, cmpEqual v u = true) →
      Slice.elems (unique A B) = []) ∧
    (List.Perm (Slice.elems B) (Slice.elems A) → Slice.elems (unique A B) = []) := by
  have hcov : (∀ v ∈ Slice.elems B, ∃ u ∈ Slice.elems A, cmpEqual v u = true) →
      Slice.elems (unique A B) = [] := fun h => by
    rw [unique_elems]; exact Delta_eq_nil_of_covered _ _ h
  refine ⟨unique_elems A B, ?_, ?_, hcov, ?_⟩
  · rw [unique_elems]; exact List.filter_sublist _
  · intro v
    rw [unique_elems]
    simp [Delta, List.mem_filter]
  · intro hp
    exact hcov fun v hv => ⟨v, hp.subset hv, cmpEqual_refl v⟩

/-- C1 at a concrete input: the old snapshot is N1, N2 and the new one N2, N1. -/
theorem unique_is_Delta_witness :
    List.Perm (Slice.elems (some [sampleNotification "N2", sampleNotification "N1"]))
      (Slice.elems (some [sampleNotification "N1", sampleNotification "N2"])) ∧
    Slice.elems (unique (some [sampleNotification "N1", sampleNotification "N2"])
      (some [sampleNotification "N2", sampleNotification "N1"])) = [] :=
  ⟨List.Perm.swap _ _ _,
   (unique_is_Delta (some [sampleNotification "N1", sampleNotification "N2"])
      (some [sampleNotification "N2", sampleNotification "N1"])).2.2.2.2
      (List.Perm.swap _ _ _)⟩

/-- C2, as the claim states it, fails: with old snapshot N1, N2 and fetched
snapshot N2, N1 the Delta is empty, yet the step sends (the nil slice). -/
theorem fetchNotifications_sends_empty_Delta :
    (fetchNotifications (steadyClient 2 (some [sampleNotification "N2", sampleNotification "N1"]))
      (sampleWorker 2 (some [sampleNotification "N1", sampleNotification "N2"])) ()).2
      = [Event.callFetchNotifications, Event.send none] ∧
    Delta [sampleNotification "N1", sampleNotification "N2"]
      [sampleNotification "N2", sampleNotification "N1"] = [] ∧
    ¬ ((∃ d, Event.send d ∈ (fetchNotifications
          (steadyClient 2 (some [sampleNotification "N2", sampleNotification "N1"]))
          (sampleWorker 2 (some [sampleNotification "N1", sampleNotification "N2"])) ()).2) ↔
        Delta [sampleNotification "N1", sampleNotification "N2"]
          [sampleNotification "N2", sampleNotification "N1"] ≠ []) := by
  have h1 : (fetchNotifications
      (steadyClient 2 (some [sampleNotification "N2", sampleNotification "N1"]))
      (sampleWorker 2 (some [sampleNotification "N1", sampleNotification "N2"])) ()).2
      = [Event.callFetchNotifications, Event.send none] := by decide
  have h2 : Delta [sampleNotification "N1", sampleNotification "N2"]
      [sampleNotification "N2", sampleNotification "N1"] = [] := by decide
  refine ⟨h1, h2, ?_⟩
  rw [h1, h2]
  simp

/-- C2, amended: for every worker and every successfully fetched snapshot `B`,
the ListFetch step sends on the output channel if and only if `B` is not
`cmp.Equal` to the current snapshot `A`, and then it sends the slice `unique`,
whose elements are Delta(A,B), exactly once, also when that Delta is empty;
when `B` equals `A` nothing is sent, and the Delta is empty then, so a
non-empty Delta is always sent. -/
theorem fetchNotifications_sends_iff_changed {σ : Type} (c : Client σ)
    (f : notificationWorker) (remote : σ) (B : Slice Notification) (r : σ)
    (h : c.FetchNotifications remote = (Except.ok B, r)) :
    (fetchNotifications c f remote).2 = Event.callFetchNotifications ::
      (if cmpEqualSlice f.notificationData B = true then []
       else [Event.send (unique f.notificationData B)]) ∧
    ((∃ d, Event.send d ∈ (fetchNotifications c f remote).2) ↔
      cmpEqualSlice f.notificationData B = false) ∧
    Slice.elems (unique f.notificationData B) =
      Delta (Slice.elems f.notificationData) (Slice.elems B) ∧
    (cmpEqualSlice f.notificationData B = true →
      Delta (Slice.elems f.notificationData) (Slice.elems B) = []) := by
  refine ⟨?_, ?_, unique_elems _ _, Delta_eq_nil_of_cmpEqualSlice _ _⟩
  · simp only [fetchNotifications, h]
    cases cmpEqualSlice f.notificationData B <;> simp
  · simp only [fetchNotifications, h]
    cases cmpEqualSlice f.notificationData B <;> simp

/-- C2 amended, at a concrete input: old snapshot N1, fetched snapshot N1, N2. -/
theorem fetchNotifications_sends_iff_changed_witness :
    (steadyClient 2 (some [sampleNotification "N1", sampleNotification "N2"])).FetchNotifications ()
      = (Except.ok (some [sampleNotification "N1", sampleNotification "N2"]), ()) ∧
    (fetchNotifications (steadyClient 2 (some [sampleNotification "N1", sampleNotification "N2"]))
      (sampleWorker 2 (some [sampleNotification "N1"])) ()).2
      = [Event.callFetchNotifications, Event.send (some [sampleNotification "N2"])] :=
  ⟨rfl, (fetchNotifications_sends_iff_changed
    (steadyClient 2 (some [sampleNotification "N1", sampleNotification "N2"]))
    (sampleWorker 2 (some [sampleNotification "N1"])) ()
    (some [sampleNotification "N1", sampleNotification "N2"]) () rfl).1.trans (by decide)⟩

/-- C3: when `FetchNotificationCount` returns the count `cnt`, the CountProbe
step calls the client once, for the count only (no `FetchNotifications` call,
nothing sent), and leaves the snapshot unchanged; if `cnt` equals the recorded
count the worker is unchanged and the next state is CountProbe, otherwise the
recorded count becomes `cnt` and the next state is ListFetch. -/
theorem fetchNotificationCount_step {σ : Type} (c : Client σ) (f : notificationWorker)
    (remote : σ) (cnt : Int) (r : σ)
    (h : c.FetchNotificationCount remote = (Except.ok cnt, r)) :
    ∃ w next, fetchNotificationCount c f remote =
        (Step.returned w next r, [Event.callFetchNotificationCount]) ∧
      Event.callFetchNotifications ∉ (fetchNotificationCount c f remote).2 ∧
      w.notificationData = f.notificationData ∧
      (cnt = f.notificationCount →
        next = some stateFunc.fetchNotificationCount ∧ w = f) ∧
      (cnt ≠ f.notificationCount →
        next = some stateFunc.fetchNotifications ∧ w.notificationCount = cnt ∧
        w.state = f.state ∧ w.e = f.e) := by
  by_cases hc : cnt = f.notificationCount
  · refine ⟨f, some stateFunc.fetchNotificationCount, ?_, ?_, rfl, fun _ => ⟨rfl, rfl⟩,
      fun hne => absurd hc hne⟩
    · simp [fetchNotificationCount, h, hc]
    · simp [fetchNotificationCount, h, hc]
  · refine ⟨{ f with notificationCount := cnt }, some stateFunc.fetchNotifications, ?_, ?_, rfl,
      fun heq => absurd heq hc, fun _ => ⟨rfl, rfl, rfl, rfl⟩⟩
    · simp [fetchNotificationCount, h, hc]
    · simp [fetchNotificationCount, h, hc]

/-- C3 at a concrete input: recorded count 1, returned count 2. -/
theorem fetchNotificationCount_step_witness :
    (steadyClient 2 (some [sampleNotification "N1"])).FetchNotificationCount ()
      = (Except.ok 2, ()) ∧
    ∃ w next, fetchNotificationCount (steadyClient 2 (some [sampleNotification "N1"]))
        (sampleWorker 1 (some [sampleNotification "N1"])) () =
        (Step.returned w next (), [Event.callFetchNotificationCount]) ∧
      Event.callFetchNotifications ∉ (fetchNotificationCount
        (steadyClient 2 (some [sampleNotification "N1"]))
        (sampleWorker 1 (some [sampleNotification "N1"])) ()).2 ∧
      w.notificationData = (sampleWorker 1 (some [sampleNotification "N1"])).notificationData ∧
      ((2 : Int) = (sampleWorker 1 (some [sampleNotification "N1"])).notificationCount →
        next = some stateFunc.fetchNotificationCount ∧
        w = sampleWorker 1 (some [sampleNotification "N1"])) ∧
      ((2 : Int) ≠ (sampleWorker 1 (some [sampleNotification "N1"])).notificationCount →
        next = some stateFunc.fetchNotifications ∧ w.notificationCount = 2 ∧
        w.state = (sampleWorker 1 (some [sampleNotification "N1"])).state ∧
        w.e = (sampleWorker 1 (some [sampleNotification "N1"])).e) :=
  ⟨rfl, fetchNotificationCount_step (steadyClient 2 (some [sampleNotification "N1"]))
    (sampleWorker 1 (some [sampleNotification "N1"])) () 2 () rfl⟩

/-- C5, the code at a failing fetch: with a client whose calls fail, `Start`
ends inside the state function, in either state, with the single event
`fatal` after the call; the output channel is never closed. -/
theorem Start_fatal_without_close :
    Start (failingClient "timeout") 3 (sampleWorker 1 (some [sampleNotification "N1"])) ()
      = (Run.exited (), [Event.callFetchNotificationCount, Event.fatal "timeout"]) ∧
    Start (failingClient "timeout") 3
      { sampleWorker 1 (some [sampleNotification "N1"]) with
        state := some stateFunc.fetchNotifications } ()
      = (Run.exited (), [Event.callFetchNotifications, Event.fatal "timeout"]) ∧
    Event.closeChannel ∉ (Start (failingClient "timeout") 3
      (sampleWorker 1 (some [sampleNotification "N1"])) ()).2 := by
  refine ⟨rfl, rfl, ?_⟩
  decide

/-- C10: with a client whose every answer is a success, ListFetch returns
CountProbe and CountProbe returns CountProbe or ListFetch, never the nil state;
so from the worker built by `NewWorker`, after any number of iterations `Start`
is still in its loop, and it has neither closed the output channel nor
signalled the done channel. -/
theorem Start_never_terminal {σ : Type} (c : Client σ) (hc : Client.succeeds c) :
    (∀ w remote, ∃ w1 r, (fetchNotifications c w remote).1 =
        Step.returned w1 (some stateFunc.fetchNotificationCount) r) ∧
    (∀ w remote, ∃ w1 next r, (fetchNotificationCount c w remote).1 =
        Step.returned w1 (some next) r) ∧
    (∀ remote, ∃ w r, NewWorker c remote = (Except.ok w, r) ∧
      w.state = some stateFunc.fetchNotificationCount ∧
      ∀ fuel, ∃ s w1 r1, (Start c fuel w r).1 = Run.looping s w1 r1 ∧
        Event.closeChannel ∉ (Start c fuel w r).2 ∧
        Event.signalFinished ∉ (Start c fuel w r).2) := by
  refine ⟨?_, ?_, ?_⟩
  · intro w remote
    obtain ⟨v, r, h⟩ := hc.2 remote
    simp only [fetchNotifications, h]
    split <;> exact ⟨_, _, rfl⟩
  · intro w remote
    obtain ⟨v, r, h⟩ := hc.1 remote
    simp only [fetchNotificationCount, h]
    split <;> exact ⟨_, _, _, rfl⟩
  · intro remote
    obtain ⟨v, r, h⟩ := hc.2 remote
    refine ⟨notificationWorker.mk (some stateFunc.fetchNotificationCount) none 0 v, r,
      by simp only [NewWorker, h], rfl, ?_⟩
    intro fuel
    obtain ⟨s1, w1, r1, hrun, hev⟩ := loop_of_succeeds c hc fuel
      stateFunc.fetchNotificationCount
      (notificationWorker.mk (some stateFunc.fetchNotificationCount) none 0 v) r
    exact ⟨s1, w1, r1, hrun, fun hm => hev _ hm, fun hm => hev _ hm⟩

/-- C10 at a concrete client, one that always answers count 2 and snapshot N1. -/
theorem Start_never_terminal_witness :
    Client.succeeds (steadyClient 2 (some [sampleNotification "N1"])) ∧
    ∀ remote, ∃ w r, NewWorker (steadyClient 2 (some [sampleNotification "N1"])) remote
        = (Except.ok w, r) ∧
      w.state = some stateFunc.fetchNotificationCount ∧
      ∀ fuel, ∃ s w1 r1,
        (Start (steadyClient 2 (some [sampleNotification "N1"])) fuel w r).1
          = Run.looping s w1 r1 ∧
        Event.closeChannel ∉ (Start (steadyClient 2 (some [sampleNotification "N1"])) fuel w r).2 ∧
        Event.signalFinished ∉
          (Start (steadyClient 2 (some [sampleNotification "N1"])) fuel w r).2 :=
  ⟨⟨fun _ => ⟨_, _, rfl⟩, fun _ => ⟨_, _, rfl⟩⟩,
   (Start_never_terminal (steadyClient 2 (some [sampleNotification "N1"]))
    ⟨fun _ => ⟨_, _, rfl⟩, fun _ => ⟨_, _, rfl⟩⟩).2.2⟩

/-- C4, the code on a host with a trailing slash: `NewClient` finds the suffix,
`TrimSuffix` would give the host without it, but the client holds the host as
given, slash included; for every host the stored host is the given one. -/
theorem NewClient_keeps_trailing_slash :
    HasSuffix "https://example.atlassian.net/" "/" = true ∧
    TrimSuffix "https://example.atlassian.net/" "/" = "https://example.atlassian.net" ∧
    (NewClient sampleLib "https://example.atlassian.net/" "ann" "secret") =
      Except.ok { host := "https://example.atlassian.net/", cookie := "",
                  credentialBuffer := "ann:secret" } ∧
    ∀ (lib : Lib) (host username password : String),
      (NewClient lib host username password).toOption.map client.host =
        (lib.Marshal username password).toOption.map fun _ => host := by
  refine ⟨by decide, by decide, rfl, ?_⟩
  intro lib host username password
  unfold NewClient
  cases lib.Marshal username password <;> rfl

/-- C6, as the claim states it, fails: the client holds the token "stale", the
pre-check is answered "forbidden" and the login succeeds with the token
"fresh"; the fetch request that follows carries "fresh", in both methods. -/
theorem fetch_after_relogin_sends_fresh_token :
    (isLoggedIn sampleLib scripted staleClient expiredSession).1 = Go.ret false ∧
    (FetchNotificationCount sampleLib scripted staleClient expiredSession).2.sent =
      [countRequest staleClient, hostRequest staleClient, loginRequest staleClient,
       { Method := "GET", URL := "https://example.atlassian.net" ++ restNotificationCount,
         Header := [("Cookie", "fresh"), ("Connection", "keep-alive")], Body := none }] ∧
    (FetchNotifications sampleLib scripted staleClient expiredSession).2.sent =
      [countRequest staleClient, hostRequest staleClient, loginRequest staleClient,
       { Method := "GET", URL := "https://example.atlassian.net" ++ restNotifications,
         Header := [("Cookie", "fresh"), ("Connection", "keep-alive")], Body := none }] ∧
    ¬ ((FetchNotificationCount sampleLib scripted staleClient expiredSession).2.sent.getLast?
        = some (countRequest staleClient)) := by
  refine ⟨by decide, by decide, by decide, by decide⟩

/-- C6, amended: when the pre-check reports the session invalid and `Login`
returns, `FetchNotificationCount` and `FetchNotifications` issue, right after
the requests of `Login`, one fetch request carrying the cookie that the
method's copy of the client holds after `Login`. That is the token of the
login response (the fresh one) when the identity endpoint answered with a
status other than "not found" and "forbidden", and the token held before (the
stale one) when the liveness check returned an error or the identity endpoint
answered "not found" or "forbidden". -/
theorem fetch_sends_cookie_after_Login {τ : Type} (lib : Lib) (h : httpClient τ)
    (c c1 : client) (n n1 n2 : Net τ) (e : Option String)
    (hpre : isLoggedIn lib h c n = (Go.ret false, n1))
    (hl : Login lib h c n1 = (Go.ret (e, c1), n2))
    (hurl1 : lib.urlError (c.host ++ restNotificationCount) = none)
    (hurl2 : lib.urlError (c.host ++ restNotifications) = none) :
    (FetchNotificationCount lib h c n).2.sent = n2.sent ++
      [{ Method := "GET", URL := c.host ++ restNotificationCount,
         Header := [("Cookie", c1.cookie), ("Connection", "keep-alive")], Body := none }] ∧
    (FetchNotifications lib h c n).2.sent = n2.sent ++
      [{ Method := "GET", URL := c.host ++ restNotifications,
         Header := [("Cookie", c1.cookie), ("Connection", "keep-alive")], Body := none }] ∧
    (∀ nA res err, isHostExisting lib h c n1 = (Go.ret none, nA) →
      doRequest h (loginRequest c) nA = ((some res, err), n2) →
      res.StatusCode ≠ StatusNotFound → res.StatusCode ≠ StatusForbidden →
      c1.cookie = res.SetCookie) ∧
    (∀ nA err, isHostExisting lib h c n1 = (Go.ret (some err), nA) → c1.cookie = c.cookie) ∧
    (∀ nA res err, isHostExisting lib h c n1 = (Go.ret none, nA) →
      doRequest h (loginRequest c) nA = ((some res, err), n2) →
      res.StatusCode = StatusNotFound ∨ res.StatusCode = StatusForbidden →
      c1.cookie = c.cookie) := by
  have hhost : c1.host = c.host := Login_host lib h c c1 n1 n2 e hl
  have hre := relogin_of_Login lib h c c1 n n1 n2 e hpre hl
  refine ⟨?_, ?_, ?_, ?_, ?_⟩
  · rw [FetchNotificationCount_net lib h c c1 n n2 hre (by rw [hhost]; exact hurl1)]
    simp [doRequest, countRequest, hhost]
  · rw [FetchNotifications_net lib h c c1 n n2 hre (by rw [hhost]; exact hurl2)]
    simp [doRequest, notificationsRequest, hhost]
  · intro nA res err hA hdo h404 h403
    simp only [Login, hA] at hl
    split at hl
    · simp at hl
    · simp only [hdo, h404, h403, if_false, Prod.mk.injEq, Go.ret.injEq] at hl
      rw [← hl.1.2]
  · intro nA err hA
    simp only [Login, hA, Prod.mk.injEq, Go.ret.injEq] at hl
    rw [← hl.1.2]
  · intro nA res err hA hdo hst
    simp only [Login, hA] at hl
    split at hl
    · simp at hl
    · simp only [hdo] at hl
      split_ifs at hl with h1 h2
      · simp only [Prod.mk.injEq, Go.ret.injEq] at hl; rw [← hl.1.2]
      · simp only [Prod.mk.injEq, Go.ret.injEq] at hl; rw [← hl.1.2]
      · rcases hst with hst | hst
        · exact absurd hst h1
        · exact absurd hst h2

/-- C6 amended, at a concrete input: token "stale", pre-check answered
"forbidden", login answered with the token "fresh". -/
theorem fetch_sends_cookie_after_Login_witness :
    isLoggedIn sampleLib scripted staleClient expiredSession = (Go.ret false, afterPreCheck) ∧
    Login sampleLib scripted staleClient afterPreCheck =
      (Go.ret (none, { staleClient with cookie := "fresh" }), afterLogin) ∧
    (FetchNotificationCount sampleLib scripted staleClient expiredSession).2.sent =
      afterLogin.sent ++
        [{ Method := "GET", URL := staleClient.host ++ restNotificationCount,
           Header := [("Cookie", "fresh"), ("Connection", "keep-alive")], Body := none }] :=
  ⟨rfl, rfl, (fetch_sends_cookie_after_Login sampleLib scripted staleClient
    { staleClient with cookie := "fresh" } expiredSession afterPreCheck afterLogin none
    rfl rfl rfl rfl).1⟩

/-- C7, the code after a successful re-login: the client holds the token
"stale", the pre-check is answered "forbidden" and `Login` succeeds with the
token "fresh"; after `FetchNotificationCount` and after `FetchNotifications`
the stored client still holds "stale". For every client and every network the
stored client is the same after a fetch as before it. -/
theorem fetch_keeps_stale_session :
    (isLoggedIn sampleLib scripted staleClient expiredSession).1 = Go.ret false ∧
    (Login sampleLib scripted staleClient afterPreCheck).1 =
      Go.ret (none, { staleClient with cookie := "fresh" }) ∧
    (FetchNotificationCount sampleLib scripted staleClient expiredSession).1.stored.cookie
      = "stale" ∧
    (FetchNotifications sampleLib scripted staleClient expiredSession).1.stored.cookie
      = "stale" ∧
    ∀ (τ : Type) (lib : Lib) (h : httpClient τ) (c : client) (n : Net τ),
      (FetchNotificationCount lib h c n).1.stored = c ∧
      (FetchNotifications lib h c n).1.stored = c := by
  refine ⟨by decide, by decide, by decide, by decide, ?_⟩
  intro τ lib h c n
  exact ⟨FetchNotificationCount_stored lib h c n, FetchNotifications_stored lib h c n⟩

/-- C8: when the liveness check of `Login` returns no error and the identity
endpoint answers the credential submission with status "forbidden", `Login`
returns the error "wrong username or password" and the client is exactly as it
was before the call, its session token included. -/
theorem Login_forbidden {τ : Type} (lib : Lib) (h : httpClient τ) (c : client)
    (n n1 n2 : Net τ) (res : Response) (err : Option String)
    (hlive : isHostExisting lib h c n = (Go.ret none, n1))
    (hurl : lib.urlError restAuthUrl = none)
    (hdo : doRequest h (loginRequest c) n1 = ((some res, err), n2))
    (hst : res.StatusCode = StatusForbidden) :
    Login lib h c n = (Go.ret (some errorWrongCredentials, c), n2) ∧
    errorWrongCredentials = "wrong username or password" := by
  refine ⟨?_, rfl⟩
  have h404 : ¬ ((StatusForbidden : Int) = StatusNotFound) := by decide
  simp only [Login, hlive, hurl, hdo, hst, h404, if_true, if_false]

/-- C8 at a concrete input: the liveness request is answered, the credential
submission is answered "forbidden". -/
theorem Login_forbidden_witness :
    isHostExisting sampleLib scripted staleClient rejectedLogin =
      (Go.ret none, (isHostExisting sampleLib scripted staleClient rejectedLogin).2) ∧
    Login sampleLib scripted staleClient rejectedLogin =
      (Go.ret (some errorWrongCredentials, staleClient),
        (Login sampleLib scripted staleClient rejectedLogin).2) :=
  ⟨rfl, (Login_forbidden sampleLib scripted staleClient rejectedLogin
    (isHostExisting sampleLib scripted staleClient rejectedLogin).2
    (Login sampleLib scripted staleClient rejectedLogin).2
    { StatusCode := 403, SetCookie := "", Body := Except.ok "" } none rfl rfl rfl rfl).1⟩

/-- C9: when the liveness GET on the host is issued and answered with status
"not found", `Login` returns the error of an unreachable host, the client is
unchanged, and the liveness GET is the only request `Login` has made: nothing
goes to the identity endpoint. -/
theorem Login_host_not_found {τ : Type} (lib : Lib) (h : httpClient τ) (c : client)
    (n : Net τ) (res : Response) (t1 : τ)
    (hurl : lib.urlError c.host = none)
    (hdo : h.Do n.transport (hostRequest c) = ((some res, none), t1))
    (hst : res.StatusCode = StatusNotFound) :
    Login lib h c n = (Go.ret (some errorUnableToFoundHost, c),
      { transport := t1, sent := n.sent ++ [hostRequest c] }) ∧
    (hostRequest c).Method = "GET" ∧ (hostRequest c).URL = c.host ∧
    loginRequest c ∉ [hostRequest c] := by
  refine ⟨?_, rfl, rfl, ?_⟩
  · simp only [Login, isHostExisting, hurl, doRequest, hdo, hst, if_true]
  · simp [loginRequest, hostRequest]

/-- C9 at a concrete input: the host answers "not found". -/
theorem Login_host_not_found_witness :
    sampleLib.urlError staleClient.host = none ∧
    Login sampleLib scripted staleClient unknownHost =
      (Go.ret (some errorUnableToFoundHost, staleClient),
        { transport := [answer 200 "fresh" ""], sent := [] ++ [hostRequest staleClient] }) :=
  ⟨rfl, (Login_host_not_found sampleLib scripted staleClient unknownHost
    { StatusCode := 404, SetCookie := "", Body := Except.ok "" } [answer 200 "fresh" ""]
    rfl rfl rfl).1⟩

end Jira
